import Mathlib

/-!
Verification of the flight-height estimation core of ImageMetaLocator.

The Python source is embedded shallowly: floats are modelled by exact
rationals (`ℚ`), Python `None` by `Option`, and the Qt spin-box widgets by
clamping functions reproducing `setRange`.  The embedded functions are
`HeightRecalculationDialog.calculate_flight_height`, `on_preset_changed`,
`update_final_height` and the `drone_presets` table (src/ui/widgets.py),
and `ImageMetaLocator.show_height_recalculation_dialog`,
`display_metadata` and `display_metadata_content` (src/ui/main_window.py).
The `AltitudeReconciler.reconcile` component is consumed but not defined
under src/, so it is modelled from the specification as flagged on its
definition.
-/

namespace ImageMetaLocator

/-- Python truthiness of an optional float: `None` and `0` are falsy, every
other value is truthy (used by `if not self.tiff_resolution or not
self.drone_reference_gsd` in widgets.py line 516). -/
def pyTruthy : Option ℚ → Bool
  | none => false
  | some v => decide (v ≠ 0)

/-- Python `x or 0` applied to an optional float (main_window.py line 256:
`terrain_elevation or 0`). -/
def pyOrZero : Option ℚ → ℚ
  | none => 0
  | some v => if v = 0 then 0 else v

/-- Python `int(q)` on a float: truncation toward zero. -/
def pyInt (q : ℚ) : ℤ := if 0 ≤ q then ⌊q⌋ else ⌈q⌉

/-- Value stored by an integer `QSpinBox` whose range is `[lo, hi]` when the
value `v` is requested: Qt clamps the request into the range. -/
def spinClampInt (lo hi v : ℤ) : ℤ := max lo (min hi v)

/-- Value stored by a `QDoubleSpinBox` whose range is `[lo, hi]` when the
value `v` is requested: Qt clamps the request into the range. -/
def spinClampRat (lo hi v : ℚ) : ℚ := max lo (min hi v)

/-- Value held by `manual_resolution_spin` after requesting `v`; its range is
`setRange(0.01, 10.0)` (widgets.py line 277). -/
def manual_resolution_spin (v : ℚ) : ℚ := spinClampRat (1 / 100) 10 v

/-- Value held by `manual_height_input` after requesting `v`; its range is
`setRange(1, 1000)` (widgets.py line 369). -/
def manual_height_input (v : ℤ) : ℤ := spinClampInt 1 1000 v

/-- Value held by `manual_height_spin` after requesting `v`; its range is
`setRange(1, 500)` (widgets.py line 305). -/
def manual_height_spin (v : ℤ) : ℤ := spinClampInt 1 500 v

/-- Value held by `manual_gsd_spin` after requesting `v`; its range is
`setRange(0.1, 10.0)` (widgets.py line 311). -/
def manual_gsd_spin (v : ℚ) : ℚ := spinClampRat (1 / 10) 10 v

/-- One terrain-elevation observation: a source id together with the
elevation the source returned, or `none` when the source failed. -/
abbrev ElevationSample : Type := String × Option ℚ

/-- The `flight_analysis` dictionary carried inside the metadata: GPS
altitude, averaged terrain elevation, the per-source elevations, the count
of sources that responded, the computed flight height, and the two
provenance flags set by the recalculation dialog.  Keys that the Python
dictionary may lack (`flight_height`, `recalculated`, `manual_adjustment`)
are modelled by `none` / `false` defaults, matching `dict.get`. -/
structure FlightAnalysis where
  gps_altitude : Option ℚ
  terrain_elevation_avg : Option ℚ
  terrain_elevations : List ElevationSample
  sources_used : ℕ
  flight_height : Option ℚ
  recalculated : Bool
  manual_adjustment : Bool
  deriving Repr, DecidableEq

/-- The slice of the metadata dictionary relevant to flight-height analysis:
the EXIF GPS altitude and the optional `flight_analysis` entry. -/
structure Metadata where
  altitude : Option ℚ
  flight_analysis : Option FlightAnalysis
  deriving Repr, DecidableEq

/-- Modelled from the spec: `AltitudeReconciler.reconcile` is not present
under src/ (only its consumers in src/ui/main_window.py are); spec section
4.1 defines it.  Absent samples are filtered out; with zero present samples
the result has `sources_used = 0` and both the terrain average and the
flight height marked not computable; otherwise the terrain average is the
arithmetic mean of the present samples and
`flight_height = gps_altitude - terrain average`. -/
def reconcile (gps_altitude_m : ℚ) (samples : List ElevationSample) :
    FlightAnalysis :=
  let present := samples.filterMap Prod.snd
  if present.length = 0 then
    { gps_altitude := some gps_altitude_m
      terrain_elevation_avg := none
      terrain_elevations := samples
      sources_used := 0
      flight_height := none
      recalculated := false
      manual_adjustment := false }
  else
    let avg := present.sum / (present.length : ℚ)
    { gps_altitude := some gps_altitude_m
      terrain_elevation_avg := some avg
      terrain_elevations := samples
      sources_used := present.length
      flight_height := some (gps_altitude_m - avg)
      recalculated := false
      manual_adjustment := false }

/-- Embedding of `HeightRecalculationDialog.calculate_flight_height`
(widgets.py lines 514-530).  The guard is Python truthiness (`if not
self.tiff_resolution or not self.drone_reference_gsd: return`), so absent
or zero inputs produce no value; otherwise the map resolution is converted
to cm per pixel and scaled by the reference-altitude / reference-GSD ratio. -/
def calculate_flight_height (tiff_resolution drone_reference_gsd : Option ℚ)
    (drone_reference_height : ℚ) : Option ℚ :=
  if pyTruthy tiff_resolution = false ∨ pyTruthy drone_reference_gsd = false
  then none
  else
    some (pyOrZero tiff_resolution * 100 / pyOrZero drone_reference_gsd *
      drone_reference_height)

/-- The fixed drone calibration table `self.drone_presets`
(widgets.py lines 167-172), as an association list. -/
def drone_presets : List (String × ℚ) :=
  [("DJI Phantom 4 PRO", 136 / 100),
   ("DJI Phantom 4", 219 / 100),
   ("DJI Mavic 2 PRO", 117 / 100),
   ("DJI Mavic 2 ZOOM", 182 / 100)]

/-- Embedding of `HeightRecalculationDialog.on_preset_changed`
(widgets.py lines 537-559) restricted to the calibration state it updates:
the pair `(drone_reference_height, drone_reference_gsd)`.  `manualH` and
`manualG` are the current values of the two manual-setup spin boxes, and
`state` is the pair before the change. -/
def on_preset_changed (text : String) (manualH : ℤ) (manualG : ℚ)
    (state : ℚ × Option ℚ) : ℚ × Option ℚ :=
  if text = "Select a drone for reference..." then
    (state.1, none)
  else if text = "Other - Manual Setup" then
    ((manualH : ℚ), some manualG)
  else
    match drone_presets.lookup text with
    | some gsd => (50, some gsd)
    | none => state

/-- Embedding of `HeightRecalculationDialog.update_final_height`
(widgets.py lines 503-512): with manual adjustment active the accepted
height becomes the integer spin-box value, otherwise the previously
computed height is kept. -/
def update_final_height (manual_checked : Bool) (manual_height : ℤ)
    (recalculated_height : Option ℚ) : Option ℚ :=
  if manual_checked then some (manual_height : ℚ) else recalculated_height

/-- The integer the manual-adjustment spin box holds after
`calculate_flight_height` pushes a computed height into it
(widgets.py lines 533-535: `self.manual_height_input.setValue(int(flight_height))`):
Python truncation followed by the Qt range clamp. -/
def manual_adjusted_height (flight_height : ℚ) : ℤ :=
  manual_height_input (pyInt flight_height)

/-- Embedding of the metadata update performed by
`ImageMetaLocator.show_height_recalculation_dialog`
(main_window.py lines 234-270).  `accepted` is the dialog result,
`recalculated_height` is `dialog.get_recalculated_height()` and
`manual_checked` is the state of the manual-adjustment checkbox.  When the
dialog is accepted with a height, a fresh `flight_analysis` entry with
`sources_used = 0` is created if none exists, and the height and the
provenance flags are written into it; otherwise the metadata is returned
unchanged. -/
def show_height_recalculation_dialog (metadata : Metadata) (accepted : Bool)
    (recalculated_height : Option ℚ) (manual_checked : Bool) : Metadata :=
  let flight := metadata.flight_analysis
  let gps : Option ℚ :=
    match flight with
    | some f => f.gps_altitude
    | none => metadata.altitude
  let terrain : Option ℚ :=
    match flight with
    | some f => f.terrain_elevation_avg
    | none => none
  match accepted, recalculated_height with
  | true, some h =>
    let base : FlightAnalysis :=
      match metadata.flight_analysis with
      | some f => f
      | none =>
        { gps_altitude := gps
          terrain_elevation_avg := some (pyOrZero terrain)
          terrain_elevations := []
          sources_used := 0
          flight_height := none
          recalculated := false
          manual_adjustment := false }
    { metadata with
      flight_analysis := some
        { base with
          flight_height := some h
          recalculated := true
          manual_adjustment :=
            if manual_checked then true else base.manual_adjustment } }
  | _, _ => metadata

/-- The manual-override path of the dialog: the checkbox is checked, the
requested height is entered into `manual_height_input`,
`update_final_height` stores the spin-box value as the recalculated height
(widgets.py lines 503-508), and the accepted dialog updates the metadata
(main_window.py lines 249-267). -/
def manual_override (requested : ℤ) (metadata : Metadata) : Metadata :=
  show_height_recalculation_dialog metadata true
    (update_final_height true (manual_height_input requested) none) true

/-- Embedding of the escalation decision in `ImageMetaLocator.display_metadata`
(main_window.py lines 224-230): the recalculation dialog is opened exactly
when a flight analysis carries a defined negative flight height. -/
def display_metadata_escalates (metadata : Metadata) : Bool :=
  match metadata.flight_analysis with
  | some f =>
    match f.flight_height with
    | some h => decide (h < 0)
    | none => false
  | none => false

/-- The two warnings `ImageMetaLocator.display_metadata_content` can emit
for a flight height (main_window.py lines 392-395). -/
inductive HeightWarning where
  | negative
  | regulatory
  deriving Repr, DecidableEq

/-- Embedding of the warning logic of `display_metadata_content`
(main_window.py lines 392-395): a negative-height warning when the height
is negative and not recalculated, else a regulatory warning when the height
exceeds 120 m. -/
def height_warning (flight_height : ℚ) (recalculated : Bool) :
    Option HeightWarning :=
  if flight_height < 0 ∧ recalculated = false then some HeightWarning.negative
  else if 120 < flight_height then some HeightWarning.regulatory
  else none

/-- Metadata states reachable in the application: the initial metadata of an
image (no flight analysis yet), the metadata produced by attaching the
reconciler result, and any number of recalculation-dialog rounds
(main_window.py lines 229, 383 and 425 open the dialog on the current
metadata). -/
inductive ReachableMetadata : Metadata → Prop where
  | init (alt : Option ℚ) : ReachableMetadata ⟨alt, none⟩
  | recon (alt : ℚ) (samples : List ElevationSample) :
      ReachableMetadata ⟨some alt, some (reconcile alt samples)⟩
  | dialog (metadata : Metadata) (accepted : Bool) (rh : Option ℚ)
      (mc : Bool) : ReachableMetadata metadata →
      ReachableMetadata
        (show_height_recalculation_dialog metadata accepted rh mc)

/-- C1: for every strictly positive orthomosaic resolution `r` (meters per
pixel) and every calibration with reference altitude `A` and strictly
positive reference GSD `G` (cm per pixel), `calculate_flight_height`
returns `flight_height_m = (r * 100 / G) * A`. -/
theorem c1_recalculate_formula (r G A : ℚ) (hr : 0 < r) (hG : 0 < G) :
    calculate_flight_height (some r) (some G) A = some (r * 100 / G * A) := by
  simp [calculate_flight_height, pyTruthy, pyOrZero, hr.ne', hG.ne']

/-- C1 witness: at resolution 0.015 m/px, reference altitude 50 m and
reference GSD 1.5 cm/px the recalculated flight height is exactly 50 m. -/
theorem c1_recalculate_formula_witness :
    calculate_flight_height (some (3 / 200)) (some (3 / 2)) 50 = some 50 := by
  have h := c1_recalculate_formula (3 / 200) (3 / 2) 50 (by norm_num) (by norm_num)
  rw [h]
  norm_num

/-- C2: with at least one present sample, `reconcile` returns the arithmetic
mean of exactly the present samples as the terrain average, returns
`flight_height = gps_altitude - terrain average`, and the terrain average,
flight height and source count are invariant under any permutation of the
sample list. -/
theorem c2_reconcile_mean (gps : ℚ) (l l2 : List ElevationSample)
    (hperm : l.Perm l2) (hp : 0 < (l.filterMap Prod.snd).length) :
    (reconcile gps l).terrain_elevation_avg
        = some ((l.filterMap Prod.snd).sum / ((l.filterMap Prod.snd).length : ℚ)) ∧
    (reconcile gps l).flight_height
        = some (gps - (l.filterMap Prod.snd).sum / ((l.filterMap Prod.snd).length : ℚ)) ∧
    (reconcile gps l).terrain_elevation_avg = (reconcile gps l2).terrain_elevation_avg ∧
    (reconcile gps l).flight_height = (reconcile gps l2).flight_height ∧
    (reconcile gps l).sources_used = (reconcile gps l2).sources_used := by
  have hfm : (l.filterMap Prod.snd).Perm (l2.filterMap Prod.snd) :=
    hperm.filterMap Prod.snd
  have hlen : (l.filterMap Prod.snd).length = (l2.filterMap Prod.snd).length :=
    hfm.length_eq
  have hsum : (l.filterMap Prod.snd).sum = (l2.filterMap Prod.snd).sum :=
    hfm.sum_eq
  have hp2 : 0 < (l2.filterMap Prod.snd).length := hlen ▸ hp
  simp only [reconcile, if_neg hp.ne', if_neg hp2.ne', hlen, hsum]
  exact ⟨trivial, trivial, trivial, trivial, trivial⟩

/-- C2 witness: GPS altitude 250 with samples A = 200, B absent, C = 210
gives the terrain average 205 and flight height 45, in whichever order the
samples arrive. -/
theorem c2_reconcile_mean_witness :
    (reconcile 250 [("a", some 200), ("b", none), ("c", some 210)]).terrain_elevation_avg
        = some 205 ∧
    (reconcile 250 [("a", some 200), ("b", none), ("c", some 210)]).flight_height
        = (reconcile 250 [("c", some 210), ("b", none), ("a", some 200)]).flight_height ∧
    (reconcile 250 [("a", some 200), ("b", none), ("c", some 210)]).flight_height
        = some 45 := by
  have h := c2_reconcile_mean 250
      [("a", some 200), ("b", none), ("c", some 210)]
      [("c", some 210), ("b", none), ("a", some 200)]
      (by decide) (by norm_num [List.filterMap_cons])
  refine ⟨?_, h.2.2.2.1, ?_⟩
  · rw [h.1]
    norm_num [List.filterMap_cons]
  · rw [h.2.1]
    norm_num [List.filterMap_cons]

/-- C3: `reconcile` invoked with zero present elevation samples returns the
distinguishable not-computable result: `sources_used = 0` and both the
terrain average and the flight height are `none` rather than any fabricated
number (and, being a total function, it cannot crash or raise a division
error). -/
theorem c3_reconcile_no_sources (gps : ℚ) (l : List ElevationSample)
    (h : (l.filterMap Prod.snd).length = 0) :
    (reconcile gps l).sources_used = 0 ∧
    (reconcile gps l).terrain_elevation_avg = none ∧
    (reconcile gps l).flight_height = none := by
  simp only [reconcile, if_pos h]
  exact ⟨trivial, trivial, trivial⟩

/-- C3 witness: a sample set whose only source failed yields the
not-computable result. -/
theorem c3_reconcile_no_sources_witness :
    (reconcile 100 [("srtm", none)]).flight_height = none ∧
    (reconcile 100 [("srtm", none)]).sources_used = 0 := by
  have h := c3_reconcile_no_sources 100 [("srtm", none)]
      (by norm_num [List.filterMap_cons])
  exact ⟨h.2.2, h.1⟩

/-- C4 counterexample: the manual-calculation path is reachable (metadata
with a GPS altitude but no flight analysis, dialog accepted with a height)
and produces a flight analysis carrying a defined flight height together
with `sources_used = 0`, so `flight_height` defined iff `sources_used > 0`
fails on the code. -/
theorem c4_invariant_counterexample :
    ReachableMetadata
      (show_height_recalculation_dialog ⟨some 100, none⟩ true (some 50) false) ∧
    (show_height_recalculation_dialog ⟨some 100, none⟩ true
        (some 50) false).flight_analysis.map
      (fun f => (f.flight_height.isSome, f.sources_used)) = some (true, 0) := by
  constructor
  · exact ReachableMetadata.dialog ⟨some 100, none⟩ true (some 50) false
      (ReachableMetadata.init (some 100))
  · rfl

/-- C4 amended: in every reachable metadata state the flight analysis has a
defined `flight_height` exactly when `sources_used > 0` or the
`recalculated` flag is set; the recalculation and manual-override paths set
`recalculated = true` but may leave `sources_used = 0`. -/
theorem c4_invariant_amended (md : Metadata) (hr : ReachableMetadata md) :
    ∀ f : FlightAnalysis, md.flight_analysis = some f →
      (f.flight_height.isSome = true ↔ (0 < f.sources_used ∨ f.recalculated = true)) := by
  induction hr with
  | init alt =>
    intro f hf
    simp at hf
  | recon alt samples =>
    intro f hf
    simp only [Option.some.injEq] at hf
    subst hf
    by_cases hlen : (samples.filterMap Prod.snd).length = 0
    · simp [reconcile, if_pos hlen]
    · simp [reconcile, if_neg hlen, Nat.pos_of_ne_zero hlen]
  | dialog metadata accepted rh mc hmd ih =>
    intro f hf
    cases accepted with
    | false =>
      cases rh with
      | none => exact ih f hf
      | some h => exact ih f hf
    | true =>
      cases rh with
      | none => exact ih f hf
      | some h =>
        cases hba : metadata.flight_analysis with
        | none =>
          simp only [show_height_recalculation_dialog, hba, Option.some.injEq] at hf
          subst hf
          simp
        | some f0 =>
          simp only [show_height_recalculation_dialog, hba, Option.some.injEq] at hf
          subst hf
          simp

/-- C4 amended witness: the reconciler result for one present sample is
reachable, has a positive source count, and accordingly carries a defined
flight height. -/
theorem c4_invariant_amended_witness :
    (reconcile 250 [("a", some 200)]).flight_height.isSome = true := by
  have h := c4_invariant_amended
      ⟨some 250, some (reconcile 250 [("a", some 200)])⟩
      (ReachableMetadata.recon 250 [("a", some 200)])
      (reconcile 250 [("a", some 200)]) rfl
  refine h.mpr (Or.inl ?_)
  norm_num [reconcile, List.filterMap_cons]

/-- C5 counterexample: `calculate_flight_height` at the strictly negative
resolution -0.05 m/px with reference GSD 1.5 and reference altitude 50 does
not reject the input: it silently returns the negative height -500/3 m. -/
theorem c5_reject_counterexample :
    calculate_flight_height (some (-(1 / 20))) (some (3 / 2)) 50
      = some (-(500 / 3)) ∧ (-(500 / 3) : ℚ) < 0 := by
  constructor
  · norm_num [calculate_flight_height, pyTruthy, pyOrZero]
  · norm_num

/-- C5 amended: `calculate_flight_height` produces no value whenever the
resolution or the reference GSD is absent or zero (Python-falsy), and the
manual-resolution spin box clamps every entry to [0.01, 10.0] m/px, so a
manually entered resolution is always strictly positive; a strictly
negative resolution, however, is not rejected by the computation itself. -/
theorem c5_reject_amended (res gsd : Option ℚ) (A x : ℚ)
    (h : pyTruthy res = false ∨ pyTruthy gsd = false) :
    calculate_flight_height res gsd A = none ∧ 0 < manual_resolution_spin x := by
  constructor
  · simp [calculate_flight_height, h]
  · have h1 : (0 : ℚ) < 1 / 100 := by norm_num
    exact lt_of_lt_of_le h1 (le_max_left _ _)

/-- C5 amended witness: a zero reference GSD is rejected (no value is
produced), and the clamped manual resolution at a requested -5 m/px is
still positive. -/
theorem c5_reject_amended_witness :
    calculate_flight_height (some (3 / 200)) (some 0) 50 = none ∧
    0 < manual_resolution_spin (-5) := by
  exact c5_reject_amended (some (3 / 200)) (some 0) 50 (-5)
    (Or.inr (by norm_num [pyTruthy]))

/-- C6: the recalculation dialog is opened by `display_metadata` exactly
when the computed flight height is below 0; `display_metadata_content`
emits the regulatory warning exactly when the height exceeds 120 m
(whatever the `recalculated` flag is), and a height above 120 m never
escalates, so the thresholds 0 and 120 govern the two behaviours. -/
theorem c6_thresholds (md : Metadata) (f : FlightAnalysis) (h : ℚ)
    (recalc : Bool) (hmd : md.flight_analysis = some f)
    (hh : f.flight_height = some h) :
    (display_metadata_escalates md = true ↔ h < 0) ∧
    (height_warning h recalc = some HeightWarning.regulatory ↔ 120 < h) ∧
    (120 < h → display_metadata_escalates md = false) := by
  have hesc : display_metadata_escalates md = decide (h < 0) := by
    simp [display_metadata_escalates, hmd, hh]
  refine ⟨?_, ?_, ?_⟩
  · rw [hesc]
    exact decide_eq_true_iff
  · unfold height_warning
    by_cases hneg : h < 0 ∧ recalc = false
    · rw [if_pos hneg]
      constructor
      · intro hcontra
        exact absurd (Option.some.inj hcontra) (by simp)
      · intro h120
        exact absurd (lt_trans (by norm_num) h120) (not_lt.mpr hneg.1.le)
    · rw [if_neg hneg]
      by_cases h120 : 120 < h
      · simp [h120]
      · simp [h120]
  · intro h120
    rw [hesc]
    simp only [decide_eq_false_iff_not, not_lt]
    exact le_trans (by norm_num) h120.le

/-- C6 witness: a reconciled flight height of 140 m (GPS 200 m, terrain
60 m) is above the 120 m limit, draws the regulatory warning, and does not
escalate to the recalculation dialog. -/
theorem c6_thresholds_witness :
    display_metadata_escalates
      ⟨some 200, some (reconcile 200 [("a", some 60)])⟩ = false ∧
    height_warning 140 false = some HeightWarning.regulatory := by
  have h := c6_thresholds ⟨some 200, some (reconcile 200 [("a", some 60)])⟩
      (reconcile 200 [("a", some 60)]) 140 false rfl
      (by norm_num [reconcile, List.filterMap_cons])
  exact ⟨h.2.2 (by norm_num), h.2.1.mpr (by norm_num)⟩

/-- C7 counterexample: requesting a manual override of 1200 m yields an
accepted flight height of 1000 m, because `manual_height_input` clamps its
value to the range [1, 1000]; so `manual_override` does not return exactly
its input for every input height. -/
theorem c7_override_counterexample :
    (manual_override 1200 ⟨some 100, none⟩).flight_analysis.map
      FlightAnalysis.flight_height = some (some 1000) ∧
    (1000 : ℚ) ≠ 1200 := by
  constructor
  · rfl
  · norm_num

/-- C7 amended: for every integer height within the spin-box range
[1, 1000], `manual_override` returns exactly that height as the accepted
flight height with `manual_adjustment = true`, regardless of any prior
metadata state; heights outside the range are clamped by the spin box. -/
theorem c7_override_amended (requested : ℤ) (md : Metadata)
    (h1 : 1 ≤ requested) (h2 : requested ≤ 1000) :
    (manual_override requested md).flight_analysis.map
        FlightAnalysis.flight_height = some (some (requested : ℚ)) ∧
    (manual_override requested md).flight_analysis.map
        FlightAnalysis.manual_adjustment = some true := by
  have hclamp : manual_height_input requested = requested := by
    unfold manual_height_input spinClampInt
    rw [min_eq_right h2, max_eq_right h1]
  unfold manual_override update_final_height
  rw [if_pos rfl, hclamp]
  cases hba : md.flight_analysis with
  | none =>
    constructor
    · simp [show_height_recalculation_dialog, hba]
    · simp [show_height_recalculation_dialog, hba]
  | some f0 =>
    constructor
    · simp [show_height_recalculation_dialog, hba]
    · simp [show_height_recalculation_dialog, hba]

/-- C7 amended witness: a manual override of 75 m on metadata whose
computed flight height was the negative value -50 m returns exactly 75 m
with the manual-adjustment flag set. -/
theorem c7_override_amended_witness :
    (manual_override 75
        ⟨some 150, some (reconcile 150 [("a", some 200)])⟩).flight_analysis.map
      FlightAnalysis.flight_height = some (some 75) ∧
    (manual_override 75
        ⟨some 150, some (reconcile 150 [("a", some 200)])⟩).flight_analysis.map
      FlightAnalysis.manual_adjustment = some true := by
  have h := c7_override_amended 75
      ⟨some 150, some (reconcile 150 [("a", some 200)])⟩
      (by norm_num) (by norm_num)
  constructor
  · rw [h.1]
    norm_num
  · exact h.2

/-- C8 counterexample: the manual calibration entry does not accept
arbitrary user-supplied pairs: requesting reference altitude 600 m and
reference GSD 0.05 cm/px stores the clamped pair (500, 0.1), because the
manual spin boxes clamp to [1, 500] m and [0.1, 10.0] cm/px. -/
theorem c8_presets_counterexample :
    on_preset_changed "Other - Manual Setup" (manual_height_spin 600)
      (manual_gsd_spin (5 / 100)) (50, none) = (500, some (1 / 10)) ∧
    ((500 : ℚ), some ((1 : ℚ) / 10)) ≠ ((600 : ℚ), some ((5 : ℚ) / 100)) := by
  constructor
  · have hh : manual_height_spin 600 = 500 := by
      unfold manual_height_spin spinClampInt
      norm_num
    have hg : manual_gsd_spin (5 / 100) = 1 / 10 := by
      unfold manual_gsd_spin spinClampRat
      norm_num
    rw [hh, hg]
    unfold on_preset_changed
    rw [if_neg (by decide), if_pos rfl]
    norm_num
  · norm_num

/-- C8 amended: the fixed table maps exactly the four drone models to
reference GSD values 1.36, 2.19, 1.17 and 1.82, selecting any of them sets
the reference altitude to 50 m, and the fifth manual entry accepts any
user-supplied pair within the spin-box ranges, altitude in [1, 500] m and
GSD in [0.1, 10.0] cm/px (values outside are clamped). -/
theorem c8_presets_amended (mh : ℤ) (mg : ℚ) (p : ℚ × Option ℚ) (A : ℤ)
    (G : ℚ) (hA1 : 1 ≤ A) (hA2 : A ≤ 500) (hG1 : 1 / 10 ≤ G) (hG2 : G ≤ 10) :
    drone_presets.length = 4 ∧
    on_preset_changed "DJI Phantom 4 PRO" mh mg p = (50, some (136 / 100)) ∧
    on_preset_changed "DJI Phantom 4" mh mg p = (50, some (219 / 100)) ∧
    on_preset_changed "DJI Mavic 2 PRO" mh mg p = (50, some (117 / 100)) ∧
    on_preset_changed "DJI Mavic 2 ZOOM" mh mg p = (50, some (182 / 100)) ∧
    on_preset_changed "Other - Manual Setup" (manual_height_spin A)
      (manual_gsd_spin G) p = ((A : ℚ), some G) := by
  have hA : manual_height_spin A = A := by
    unfold manual_height_spin spinClampInt
    rw [min_eq_right hA2, max_eq_right hA1]
  have hG : manual_gsd_spin G = G := by
    unfold manual_gsd_spin spinClampRat
    rw [min_eq_right hG2, max_eq_right hG1]
  refine ⟨rfl, rfl, rfl, rfl, rfl, ?_⟩
  rw [hA, hG]
  rfl

/-- C8 amended witness: selecting the first preset fixes the calibration to
(50 m, 1.36 cm/px), and a manual entry of (120 m, 1.5 cm/px), which lies
inside the spin-box ranges, is stored exactly. -/
theorem c8_presets_amended_witness :
    on_preset_changed "DJI Phantom 4 PRO" 0 0 (0, none) = (50, some (136 / 100)) ∧
    on_preset_changed "Other - Manual Setup" (manual_height_spin 120)
      (manual_gsd_spin (3 / 2)) (0, none) = (120, some (3 / 2)) := by
  have h := c8_presets_amended 0 0 ((0 : ℚ), none) 120 (3 / 2)
      (by norm_num) (by norm_num) (by norm_num) (by norm_num)
  constructor
  · exact h.2.1
  · rw [h.2.2.2.2.2]
    norm_num

/-- C9: when the recalculation dialog is cancelled, or accepted while
`get_recalculated_height` returns no height, the metadata is returned
entirely unchanged: the prior flight height (possibly negative) and both
provenance flags are untouched. -/
theorem c9_cancel_unchanged (md : Metadata) (accepted : Bool)
    (rh : Option ℚ) (mc : Bool) (h : accepted = false ∨ rh = none) :
    show_height_recalculation_dialog md accepted rh mc = md := by
  rcases h with h | h
  · subst h
    cases rh with
    | none => rfl
    | some v => rfl
  · subst h
    cases accepted with
    | false => rfl
    | true => rfl

/-- C9 witness: cancelling the dialog on metadata holding a negative
computed flight height leaves that metadata identical. -/
theorem c9_cancel_unchanged_witness :
    show_height_recalculation_dialog
        ⟨some 150, some (reconcile 150 [("a", some 200)])⟩ false (some 80) true
      = ⟨some 150, some (reconcile 150 [("a", some 200)])⟩ := by
  exact c9_cancel_unchanged ⟨some 150, some (reconcile 150 [("a", some 200)])⟩
    false (some 80) true (Or.inl rfl)

/-- C10: every height accepted through the manual-adjustment path is the
rational image of an integer in [1, 1000]: the spin-box value is clamped to
that range, a computed height pushed into the spin box is first truncated
by Python `int` and then clamped, and within [1, 1000] the clamp is the
identity, so the accepted value is exactly the truncation. -/
theorem c10_manual_clamped (fh : ℚ) (v : ℤ) (prev : Option ℚ) :
    1 ≤ manual_adjusted_height fh ∧ manual_adjusted_height fh ≤ 1000 ∧
    1 ≤ manual_height_input v ∧ manual_height_input v ≤ 1000 ∧
    update_final_height true (manual_height_input v) prev
      = some ((manual_height_input v : ℚ)) ∧
    ((1 : ℚ) ≤ fh → fh ≤ 1000 → manual_adjusted_height fh = pyInt fh) := by
  have hlow : ∀ w : ℤ, 1 ≤ manual_height_input w := by
    intro w
    exact le_max_left _ _
  have hhigh : ∀ w : ℤ, manual_height_input w ≤ 1000 := by
    intro w
    exact max_le (by norm_num) (min_le_left _ _)
  refine ⟨hlow _, hhigh _, hlow _, hhigh _, rfl, ?_⟩
  intro hfh1 hfh2
  have h0 : (0 : ℚ) ≤ fh := le_trans (by norm_num) hfh1
  have hfloor : pyInt fh = ⌊fh⌋ := by
    unfold pyInt
    rw [if_pos h0]
  have hge : 1 ≤ ⌊fh⌋ := by
    rw [Int.le_floor]
    exact_mod_cast hfh1
  have hle : ⌊fh⌋ ≤ 1000 := by
    have := Int.floor_le_floor (α := ℚ) hfh2
    simpa using this
  unfold manual_adjusted_height manual_height_input spinClampInt
  rw [hfloor, min_eq_right hle, max_eq_right hge]

/-- C10 witness: a computed height of 75.5 m with manual adjustment active
is accepted as the integer 75, which lies in [1, 1000]. -/
theorem c10_manual_clamped_witness :
    manual_adjusted_height (151 / 2) = 75 ∧
    1 ≤ manual_adjusted_height (151 / 2) := by
  have h := c10_manual_clamped (151 / 2) 42 none
  constructor
  · rw [h.2.2.2.2.2 (by norm_num) (by norm_num)]
    unfold pyInt
    rw [if_pos (by norm_num)]
    norm_num [Int.floor_eq_iff]
  · exact h.1

end ImageMetaLocator
